import Mathlib

/-!
Verification development for the MENBAR media-backend job orchestration core
(`src/server/app_core.py`).

The Python module keeps a process-wide dictionary `tasks_storage` mapping job
ids to records `\x7bstatus, result, progress, updated_at\x7d`.  Endpoints allocate a
uuid, write a pending record, and dispatch a background task function; each
task function wraps its body in try/except and writes registry updates via
`update_task_status`.  We embed this shallowly:

* the registry is an association list `List (String × TaskRecord)`;
  `update_task_status` / `get_task_status` mirror the dict assignment and
  `dict.get` with a default sentinel;
* outcomes of external effects (ffmpeg/ffprobe subprocesses, HTTP calls,
  file writes, `random` draws, `uuid4` draws, `json.loads` decoding,
  `requests.utils.quote` encoding) are passed in as explicit oracle
  parameters, since the Python code only observes their results;
* each `run_*_task` function is embedded as the sequence of
  `update_task_status` write events it performs, as a function of the oracle
  outcomes — this captures exactly the registry traffic of one execution;
* `generate_premiere_xml` is embedded as the timeline (list of clip
  segments) its cut loop produces; the surrounding XML string concatenation
  carries no further structure.  The Python loop calls
  `random.randint(0, cam_count - 1)`, which raises `ValueError` when
  `cam_count = 0`, so the embedding returns `Except.error` in that case,
  mirroring the exception.
-/

namespace Menbar

/-- Result payloads stored in the `result` field of a registry record.  Each
constructor corresponds to one dict literal written by `app_core.py`:
progress messages `\x7b"message": m\x7d`, error descriptors `\x7b"error": e\x7d`, and the
kind-specific success payloads of the four task functions. -/
inductive TaskResult where
  | message (msg : String)
  | errorDesc (err : String)
  | mixOutput (output_url file_path : String)
  | srtOutput (output_url file_path srt_content : String)
  | montageOutput (output_url file_path msg : String)
  | imageOutput (url : String)
deriving DecidableEq

/-- One record of `tasks_storage`, mirroring the dict written by
`update_task_status`: status string, optional result payload, integer
progress, and the per-write `updated_at` token (a `uuid4().hex` in Python,
modelled as an opaque string). -/
structure TaskRecord where
  status : String
  result : Option TaskResult
  progress : ℤ
  updated_at : String
deriving DecidableEq

/-- The shared registry `tasks_storage`, embedded as an association list. -/
abbrev Registry := List (String × TaskRecord)

/-- Lookup of `tasks_storage[task_id]` (first binding wins, as in a dict). -/
def lookupTask : Registry → String → Option TaskRecord
  | [], _ => none
  | (k, v) :: rest, task_id => if k = task_id then some v else lookupTask rest task_id

/-- Dict assignment `tasks_storage[task_id] = rec`: replace the existing
binding in place, or append a new one. -/
def setTask : Registry → String → TaskRecord → Registry
  | [], task_id, rec => [(task_id, rec)]
  | (k, v) :: rest, task_id, rec =>
      if k = task_id then (k, rec) :: rest else (k, v) :: setTask rest task_id rec

/-- `update_task_status(task_id, status, result, progress)`: overwrites the
full record for `task_id`.  The Python defaults (`result=None`,
`progress=0`) are expanded at every call site.  `token` is the fresh
`uuid4().hex` stored in `updated_at`. -/
def update_task_status (reg : Registry) (task_id status : String)
    (result : Option TaskResult) (progress : ℤ) (token : String) : Registry :=
  setTask reg task_id ⟨status, result, progress, token⟩

/-- The sentinel returned by `get_task_status` for an unknown id:
`\x7b"status": "NOT_FOUND", "progress": 0\x7d`.  The absent `result` and
`updated_at` keys are modelled as `none` and `""`. -/
def notFoundRecord : TaskRecord := ⟨"NOT_FOUND", none, 0, ""⟩

/-- `get_task_status(task_id)`: `tasks_storage.get(task_id, sentinel)`. -/
def get_task_status (reg : Registry) (task_id : String) : TaskRecord :=
  match lookupTask reg task_id with
  | some r => r
  | none => notFoundRecord

/-- GET `/status/\x7bjob_id\x7d` — returns `get_task_status(job_id)` and performs
no write; embedded in state-passing style so that read-onlyness is a
provable statement rather than a convention. -/
def get_status (reg : Registry) (job_id : String) : TaskRecord × Registry :=
  (get_task_status reg job_id, reg)

/-- `get_audio_duration(path)`: runs ffprobe and parses its output; on any
exception (subprocess failure or float-parse failure) the bare `except`
returns `300.0`.  The probe outcome is the oracle input: `some d` when
ffprobe succeeded and its output parsed as `d`, `none` otherwise. -/
def get_audio_duration (probe : Option ℚ) : ℚ :=
  match probe with
  | some d => d
  | none => 300

/-- The local `cut_duration = 3 if style == "internal" else 6` of
`generate_premiere_xml`; `random.uniform(cut_duration - 1, cut_duration + 2)`
draws each clip length from this jitter band. -/
def cut_duration (style : String) : ℚ :=
  if style = "internal" then 3 else 6

/-- One `<video .../>` clip of the generated timeline: camera index,
offset (`current_time` at emission) and clip duration. -/
structure Seg where
  cam : ℕ
  offset : ℚ
  duration : ℚ
deriving DecidableEq

/-- The cut loop of `generate_premiere_xml`:

    while current_time < total_duration:
        cam_idx = random.randint(0, cam_count - 1)
        duration = random.uniform(cut_duration - 1, cut_duration + 2)
        if current_time + duration > total_duration:
            duration = total_duration - current_time
        emit clip(cam_idx, current_time, duration)
        current_time += duration

`draws` supplies the successive `(randint, uniform)` outcomes.
`random.randint(0, cam_count - 1)` raises `ValueError` on an empty range,
i.e. whenever `cam_count = 0` and the loop body runs — embedded as
`Except.error`.  The `"randomness exhausted"` branch is a model artifact
(Python draws fresh randomness forever); theorems that need the loop to
finish supply enough draws. -/
def buildClips (total : ℚ) (cam_count : ℕ) : List (ℕ × ℚ) → ℚ → Except String (List Seg)
  | [], current =>
      if current < total then
        if cam_count = 0 then Except.error "empty range for randrange()"
        else Except.error "randomness exhausted"
      else Except.ok []
  | (c, r) :: rest, current =>
      if current < total then
        if cam_count = 0 then Except.error "empty range for randrange()"
        else
          if total < current + r then
            match buildClips total cam_count rest total with
            | Except.ok segs => Except.ok (⟨c, current, total - current⟩ :: segs)
            | Except.error e => Except.error e
          else
            match buildClips total cam_count rest (current + r) with
            | Except.ok segs => Except.ok (⟨c, current, r⟩ :: segs)
            | Except.error e => Except.error e
      else Except.ok []

/-- `generate_premiere_xml(audio_path, video_paths, style, total_duration)`:
the timeline content of the produced fcpxml.  `audio_path` only feeds the
asset URL string and `style` only sets the range from which the duration
draws are sampled, so neither influences the clip structure beyond the
draws themselves. -/
def generate_premiere_xml (audio_path : String) (video_paths : List String)
    (style : String) (total_duration : ℚ) (draws : List (ℕ × ℚ)) :
    Except String (List Seg) :=
  buildClips total_duration video_paths.length draws 0

/-- One call to `update_task_status` made by a task execution: the status,
result and progress arguments of that call (the `updated_at` token is a
fresh uuid on every write and carries no claim-relevant structure). -/
structure WriteEv where
  status : String
  result : Option TaskResult
  progress : ℤ
deriving DecidableEq

/-- The `update_task_status(job_id, "pending")` write every submit endpoint
performs before dispatching the background task (defaults expanded). -/
def pendingWrite : WriteEv := ⟨"pending", none, 0⟩

/-- The write performed by the `except` handler of every task function:
`update_task_status(task_id, "failed", result=\x7b"error": str(e)\x7d)` — note
the `progress` argument is left at its default `0`. -/
def failedWrite (e : String) : WriteEv := ⟨"failed", some (TaskResult.errorDesc e), 0⟩

/-- First write of `run_mix_task` (processing, progress 10). -/
def mixProcessingWrite : WriteEv :=
  ⟨"processing", some (TaskResult.message "بدء مزج المسارات..."), 10⟩

/-- Final write of `run_mix_task` on success (completed, progress 100). -/
def mixCompletedWrite (task_id : String) : WriteEv :=
  ⟨"completed", some (TaskResult.mixOutput ("/outputs/mix_" ++ task_id ++ ".mp3")
    ("data/outputs/mix_" ++ task_id ++ ".mp3")), 100⟩

/-- `run_mix_task(task_id, vocal_path, slap_path)` as its registry write
sequence.  The one fallible step is `mix_audio_aza` (ffmpeg subprocess,
plus `ensure_ffmpeg`): `mix_outcome = none` models success, `some e` models
an exception with description `e`, which the `except` clause converts into
the failure write. -/
def run_mix_task (task_id vocal_path slap_path : String)
    (mix_outcome : Option String) : List WriteEv :=
  match mix_outcome with
  | some e => [mixProcessingWrite, failedWrite e]
  | none => [mixProcessingWrite, mixCompletedWrite task_id]

/-- First write of `run_srt_sync_task` (processing, progress 10). -/
def srtProcessingWrite : WriteEv :=
  ⟨"processing", some (TaskResult.message "تحليل النبرات والمزامنة..."), 10⟩

/-- Final write of `run_srt_sync_task` on success. -/
def srtCompletedWrite (task_id srt_content : String) : WriteEv :=
  ⟨"completed", some (TaskResult.srtOutput ("/outputs/sync_" ++ task_id ++ ".srt")
    ("data/outputs/sync_" ++ task_id ++ ".srt") srt_content), 100⟩

/-- `run_srt_sync_task(task_id, audio_path, lyrics)` as its write sequence.
`generate_srt_via_ai` never raises (its own try/except returns an error
string instead), so its return value is the oracle input `srt_content`;
the only fallible step inside the task's `try` is writing the .srt file,
modelled by `write_outcome`. -/
def run_srt_sync_task (task_id srt_content : String)
    (write_outcome : Option String) : List WriteEv :=
  match write_outcome with
  | some e => [srtProcessingWrite, failedWrite e]
  | none => [srtProcessingWrite, srtCompletedWrite task_id srt_content]

/-- Writes 1–3 of `run_montage_task` (processing at 10, 35 and 70). -/
def montageWrite1 : WriteEv :=
  ⟨"processing", some (TaskResult.message "بدء تحليل البصمة الصوتية..."), 10⟩

/-- Second processing write of `run_montage_task`. -/
def montageWrite2 : WriteEv :=
  ⟨"processing", some (TaskResult.message "تم تحليل المدة. جاري توزيع الكاميرات..."), 35⟩

/-- Third processing write of `run_montage_task`. -/
def montageWrite3 : WriteEv :=
  ⟨"processing", some (TaskResult.message "بناء مشروع بريمير متكامل..."), 70⟩

/-- Final write of `run_montage_task` on success. -/
def montageCompletedWrite (task_id : String) : WriteEv :=
  ⟨"completed", some (TaskResult.montageOutput ("/outputs/montage_" ++ task_id ++ ".xml")
    ("data/outputs/montage_" ++ task_id ++ ".xml") "اكتمل المخرج الآلي بنجاح!"), 100⟩

/-- `run_montage_task(task_id, audio_path, video_paths, lyrics, style)` as
its write sequence.  `get_audio_duration` never raises (bare except with the
300 fallback), so after the three processing writes the fallible steps are
`generate_premiere_xml` (raises on zero cameras) and the .xml file write
(`write_outcome`); either exception reaches the `except` clause. -/
def run_montage_task (task_id audio_path : String) (video_paths : List String)
    (lyrics style : String) (probe : Option ℚ) (draws : List (ℕ × ℚ))
    (write_outcome : Option String) : List WriteEv :=
  match generate_premiere_xml audio_path video_paths style (get_audio_duration probe) draws with
  | Except.error e => [montageWrite1, montageWrite2, montageWrite3, failedWrite e]
  | Except.ok _ =>
      match write_outcome with
      | some e => [montageWrite1, montageWrite2, montageWrite3, failedWrite e]
      | none => [montageWrite1, montageWrite2, montageWrite3, montageCompletedWrite task_id]

/-- First write of `run_image_gen_task`:
`update_task_status(task_id, "processing", progress=50)` — no result. -/
def imageProcessingWrite : WriteEv := ⟨"processing", none, 50⟩

/-- Final write of `run_image_gen_task`. -/
def imageCompletedWrite (safe_prompt : String) : WriteEv :=
  ⟨"completed", some (TaskResult.imageOutput ("https://image.pollinations.ai/prompt/"
    ++ safe_prompt ++ "?width=1024&height=1024&nologo=true")), 100⟩

/-- `run_image_gen_task(task_id, prompt)` as its write sequence.
`safe_prompt` is the output of `requests.utils.quote(prompt)` (pure URL
quoting, modelled as a precomputed input); building the URL string cannot
raise, so this task always completes. -/
def run_image_gen_task (task_id safe_prompt : String) : List WriteEv :=
  [imageProcessingWrite, imageCompletedWrite safe_prompt]

/-- POST `/mix`: allocates `job_id = uuid4().hex` (the oracle input
`job_id`), synchronously writes the pending record, schedules the
background task, and returns the job id. -/
def start_mix (reg : Registry) (job_id vocal_path slap_path token : String) :
    Except String String × Registry :=
  (Except.ok job_id, update_task_status reg job_id "pending" none 0 token)

/-- POST `/srt/sync`: same shape as `/mix`. -/
def start_srt_sync (reg : Registry) (job_id audio_path lyrics token : String) :
    Except String String × Registry :=
  (Except.ok job_id, update_task_status reg job_id "pending" none 0 token)

/-- POST `/montage/start`: its first statement is
`v_list = json.loads(video_paths)`, which raises before the uuid is drawn
and before any registry write when the form field is not valid JSON.
`decoded_video_paths` is the decode outcome (`none` = `json.loads` raised);
the error component models the exception propagating to the caller with the
registry untouched. -/
def start_montage (reg : Registry) (job_id audio_path : String)
    (decoded_video_paths : Option (List String)) (lyrics style token : String) :
    Except String String × Registry :=
  match decoded_video_paths with
  | none => (Except.error "video_paths is not valid JSON", reg)
  | some _ => (Except.ok job_id, update_task_status reg job_id "pending" none 0 token)

/-- POST `/image/generate`: same shape as `/mix`. -/
def start_image_gen (reg : Registry) (job_id prompt token : String) :
    Except String String × Registry :=
  (Except.ok job_id, update_task_status reg job_id "pending" none 0 token)

/-- Rank of a status string in the lifecycle order
`pending < processing < \x7bcompleted, failed\x7d`. -/
def statusLevel (s : String) : ℕ :=
  if s = "pending" then 0 else if s = "processing" then 1 else 2

/-- A write with a terminal status. -/
def isTerminal (w : WriteEv) : Bool :=
  w.status == "completed" || w.status == "failed"

/-- Consecutive status levels never decrease along the write sequence. -/
def levelsMonotoneB : List WriteEv → Bool
  | a :: b :: rest => decide (statusLevel a.status ≤ statusLevel b.status)
      && levelsMonotoneB (b :: rest)
  | _ => true

/-- Only the last write of the sequence may carry a terminal status. -/
def noWriteAfterTerminalB : List WriteEv → Bool
  | a :: b :: rest => !(isTerminal a) && noWriteAfterTerminalB (b :: rest)
  | _ => true

/-- Adjacent elements are non-decreasing. -/
def chainLeB : List ℤ → Bool
  | a :: b :: rest => decide (a ≤ b) && chainLeB (b :: rest)
  | _ => true

/-- Every write carries a progress in [0, 100]. -/
def progressInRangeB (ws : List WriteEv) : Bool :=
  ws.all fun w => decide (0 ≤ w.progress) && decide (w.progress ≤ 100)

/-- The progress values of the writes with status processing, in write
order, are non-decreasing. -/
def processingMonotoneB (ws : List WriteEv) : Bool :=
  chainLeB ((ws.filter fun w => w.status == "processing").map WriteEv.progress)

/-- Every write with status completed carries progress exactly 100. -/
def completedAtHundredB (ws : List WriteEv) : Bool :=
  ws.all fun w => !(w.status == "completed") || (w.progress == 100)

/-- Sum of the durations of a clip list. -/
def segSum : List Seg → ℚ
  | [] => 0
  | s :: rest => s.duration + segSum rest

/-- Segments are consecutive starting at `start`: each offset equals the
sum of all preceding durations (zero gaps, zero overlaps). -/
def offsetsChainedB (start : ℚ) : List Seg → Bool
  | [] => true
  | s :: rest => decide (s.offset = start) && offsetsChainedB (start + s.duration) rest

/-- Every segment length lies in `[lo, hi]`, except that the final segment
is only required to be positive and at most `hi` (it may be clamped below
`lo` by the end-of-timeline adjustment). -/
def bandExceptLastB (lo hi : ℚ) : List Seg → Bool
  | [] => true
  | [s] => decide (0 < s.duration) && decide (s.duration ≤ hi)
  | s :: rest => decide (lo ≤ s.duration) && decide (s.duration ≤ hi)
      && bandExceptLastB lo hi rest

/-! ### Helper lemmas -/

/-- When the loop guard already fails, the cut loop emits nothing. -/
theorem buildClips_of_not_lt (total : ℚ) (cam : ℕ) (draws : List (ℕ × ℚ))
    (current : ℚ) (h : ¬ current < total) :
    buildClips total cam draws current = Except.ok [] := by
  cases draws with
  | nil => simp [buildClips, h]
  | cons p rest =>
    obtain ⟨c, r⟩ := p
    simp [buildClips, h]

/-- The jitter band's lower edge is positive for every style. -/
theorem cut_duration_sub_one_pos (style : String) : 0 < cut_duration style - 1 := by
  unfold cut_duration
  split <;> norm_num

/-- Invariants of every successful run of the cut loop, for draws sampled
from `[lo, hi]`: the emitted clips exactly cover `[current, total]`, are
consecutive with zero gaps and overlaps, and each clip length lies in the
band except possibly the clamped final one. -/
theorem buildClips_ok_spec (total lo hi : ℚ) (cam : ℕ) (hlo : 0 < lo) :
    ∀ (draws : List (ℕ × ℚ)) (current : ℚ) (segs : List Seg),
      (∀ p ∈ draws, lo ≤ p.2 ∧ p.2 ≤ hi) →
      current ≤ total →
      buildClips total cam draws current = Except.ok segs →
      current + segSum segs = total ∧ offsetsChainedB current segs = true ∧
        bandExceptLastB lo hi segs = true := by
  intro draws
  induction draws with
  | nil =>
    intro current segs _ hle h
    by_cases hc : current < total
    · simp only [buildClips, if_pos hc] at h
      split at h <;> simp at h
    · simp only [buildClips, if_neg hc] at h
      obtain rfl : ([] : List Seg) = segs := by simpa using h
      have : current = total := le_antisymm hle (not_lt.mp hc)
      simp [segSum, offsetsChainedB, bandExceptLastB, this]
  | cons p rest ih =>
    obtain ⟨c, r⟩ := p
    intro current segs hdraws hle h
    have hr : lo ≤ r ∧ r ≤ hi := hdraws (c, r) (List.mem_cons_self _ _)
    have hrest : ∀ q ∈ rest, lo ≤ q.2 ∧ q.2 ≤ hi :=
      fun q hq => hdraws q (List.mem_cons_of_mem _ hq)
    by_cases hc : current < total
    · simp only [buildClips, if_pos hc] at h
      by_cases hcam : cam = 0
      · rw [if_pos hcam] at h
        simp at h
      · rw [if_neg hcam] at h
        by_cases hclamp : total < current + r
        · rw [if_pos hclamp, buildClips_of_not_lt total cam rest total (lt_irrefl total)] at h
          obtain rfl : (⟨c, current, total - current⟩ : Seg) :: [] = segs := by simpa using h
          refine ⟨by simp [segSum], ?_, ?_⟩
          · simp [offsetsChainedB]
          · simp only [bandExceptLastB, Bool.and_eq_true, decide_eq_true_eq]
            constructor
            · linarith
            · linarith [hr.2]
        · rw [if_neg hclamp] at h
          cases hrec : buildClips total cam rest (current + r) with
          | error e =>
            rw [hrec] at h
            simp at h
          | ok segs2 =>
            rw [hrec] at h
            obtain rfl : (⟨c, current, r⟩ : Seg) :: segs2 = segs := by simpa using h
            obtain ⟨hsum, hchain, hband⟩ := ih (current + r) segs2 hrest (not_lt.mp hclamp) hrec
            refine ⟨by simp [segSum] at *; linarith, ?_, ?_⟩
            · simp [offsetsChainedB, hchain]
            · cases segs2 with
              | nil =>
                simp only [bandExceptLastB, Bool.and_eq_true, decide_eq_true_eq]
                exact ⟨lt_of_lt_of_le hlo hr.1, hr.2⟩
              | cons s2 t2 =>
                simp only [bandExceptLastB, Bool.and_eq_true, decide_eq_true_eq] at hband ⊢
                exact ⟨⟨hr.1, hr.2⟩, hband⟩
    · rw [buildClips_of_not_lt total cam _ current hc] at h
      obtain rfl : ([] : List Seg) = segs := by simpa using h
      have : current = total := le_antisymm hle (not_lt.mp hc)
      simp [segSum, offsetsChainedB, bandExceptLastB, this]

/-- With at least one camera and enough draws to cover the remaining time,
the cut loop terminates successfully (as the Python loop always does, since
it draws fresh randomness at every iteration). -/
theorem buildClips_enough_draws (total lo : ℚ) (cam : ℕ) (hcam : cam ≠ 0) (hlo : 0 < lo) :
    ∀ (draws : List (ℕ × ℚ)) (current : ℚ),
      (∀ p ∈ draws, lo ≤ p.2) →
      total - current ≤ (draws.length : ℚ) * lo →
      ∃ segs, buildClips total cam draws current = Except.ok segs := by
  intro draws
  induction draws with
  | nil =>
    intro current _ hlen
    refine ⟨[], buildClips_of_not_lt _ _ _ _ ?_⟩
    simp at hlen
    linarith
  | cons p rest ih =>
    obtain ⟨c, r⟩ := p
    intro current hdraws hlen
    have hr : lo ≤ r := hdraws (c, r) (List.mem_cons_self _ _)
    have hrest : ∀ q ∈ rest, lo ≤ q.2 := fun q hq => hdraws q (List.mem_cons_of_mem _ hq)
    by_cases hc : current < total
    · by_cases hclamp : total < current + r
      · obtain ⟨segs2, hrec⟩ := ih total hrest (by
          have : (0 : ℚ) ≤ (rest.length : ℚ) * lo :=
            mul_nonneg (Nat.cast_nonneg _) (le_of_lt hlo)
          linarith)
        refine ⟨⟨c, current, total - current⟩ :: segs2, ?_⟩
        simp only [buildClips, if_pos hc, if_neg hcam, if_pos hclamp, hrec]
      · obtain ⟨segs2, hrec⟩ := ih (current + r) hrest (by
          have hcast : ((((c, r) :: rest).length : ℕ) : ℚ) = (rest.length : ℚ) + 1 := by
            push_cast [List.length_cons]
            ring
          rw [hcast] at hlen
          nlinarith)
        refine ⟨⟨c, current, r⟩ :: segs2, ?_⟩
        simp only [buildClips, if_pos hc, if_neg hcam, if_neg hclamp, hrec]
    · exact ⟨[], buildClips_of_not_lt _ _ _ _ hc⟩

/-- Looking up an id immediately after setting it yields the set record
(dict assignment followed by dict lookup). -/
theorem lookupTask_setTask_self (reg : Registry) (task_id : String) (rec : TaskRecord) :
    lookupTask (setTask reg task_id rec) task_id = some rec := by
  induction reg with
  | nil => simp [setTask, lookupTask]
  | cons kv rest ih =>
    obtain ⟨k, v⟩ := kv
    by_cases hk : k = task_id
    · simp [setTask, lookupTask, hk]
    · simp [setTask, lookupTask, hk, ih]

/-- A query right after `update_task_status` observes exactly the written
record. -/
theorem get_after_update (reg : Registry) (task_id status : String)
    (result : Option TaskResult) (progress : ℤ) (token : String) :
    get_task_status (update_task_status reg task_id status result progress token) task_id
      = ⟨status, result, progress, token⟩ := by
  simp [get_task_status, update_task_status, lookupTask_setTask_self]

/-! ### Claims -/

/-- Claim C1, counterexample: the claim asserts the failed record carries the
job's current progress.  In `run_mix_task` an exception raised inside
`mix_audio_aza` occurs while the job's current progress is 10, yet the
`except` handler calls `update_task_status` without a `progress` argument, so
the failed record carries the default progress 0, not 10. -/
theorem C1_counterexample :
    run_mix_task "job1" "v.mp3" "s.mp3" (some "boom")
      = [mixProcessingWrite, ⟨"failed", some (TaskResult.errorDesc "boom"), 0⟩] ∧
    mixProcessingWrite.progress = 10 ∧ (10 : ℤ) ≠ 0 :=
  ⟨rfl, rfl, by decide⟩

/-- Claim C1, amended: for every work-function execution that raises an
exception, the adapter catches it and writes a terminal update
`Update(id, Failed, 0, \x7berror: description\x7d)` — the failed record carries an
error descriptor but its progress is reset to the default 0 rather than the
job's current progress — and the exception never propagates out of the task
function (every execution trace is a finished write list ending in that
terminal write).  The image-generation task builds a URL string and cannot
raise. -/
theorem C1_amended (tid vocal slap content ap ly st e1 e2 e3 e4 : String)
    (vps3 vps4 : List String) (probe3 probe4 : Option ℚ)
    (draws3 draws4 : List (ℕ × ℚ)) (segs : List Seg) (wO4 : Option String) :
    failedWrite e1 = ⟨"failed", some (TaskResult.errorDesc e1), 0⟩ ∧
    run_mix_task tid vocal slap (some e1) = [mixProcessingWrite, failedWrite e1] ∧
    run_srt_sync_task tid content (some e2) = [srtProcessingWrite, failedWrite e2] ∧
    (generate_premiere_xml ap vps3 st (get_audio_duration probe3) draws3 = Except.ok segs →
      run_montage_task tid ap vps3 ly st probe3 draws3 (some e3)
        = [montageWrite1, montageWrite2, montageWrite3, failedWrite e3]) ∧
    (generate_premiere_xml ap vps4 st (get_audio_duration probe4) draws4 = Except.error e4 →
      run_montage_task tid ap vps4 ly st probe4 draws4 wO4
        = [montageWrite1, montageWrite2, montageWrite3, failedWrite e4]) := by
  refine ⟨rfl, rfl, rfl, ?_, ?_⟩
  · intro hg
    simp only [run_montage_task, hg]
  · intro hg
    simp only [run_montage_task, hg]

/-- Witness for C1_amended at concrete inputs: a failing mix, a failing srt
file write, a montage whose xml write fails after a successful generate, and
a montage whose generate raises on an empty camera list. -/
theorem C1_amended_witness :
    run_mix_task "t" "v" "s" (some "E1") = [mixProcessingWrite, failedWrite "E1"] ∧
    run_srt_sync_task "t" "c" (some "E2") = [srtProcessingWrite, failedWrite "E2"] ∧
    run_montage_task "t" "a" ["cam.mp4"] "l" "internal" (some 0) [] (some "E3")
      = [montageWrite1, montageWrite2, montageWrite3, failedWrite "E3"] ∧
    run_montage_task "t" "a" [] "l" "internal" none [] none
      = [montageWrite1, montageWrite2, montageWrite3,
          failedWrite "empty range for randrange()"] := by
  have h := C1_amended "t" "v" "s" "c" "a" "l" "internal" "E1" "E2" "E3"
      "empty range for randrange()" ["cam.mp4"] [] (some 0) none [] [] [] none
  exact ⟨h.2.1, h.2.2.1,
    h.2.2.2.1 (by norm_num [generate_premiere_xml, buildClips, get_audio_duration]),
    h.2.2.2.2 (by norm_num [generate_premiere_xml, buildClips, get_audio_duration])⟩

/-- Claim C2: for every submitted job (any of the four kinds, any oracle
outcomes), the sequence of status values written to the registry — the
pending write of the submit endpoint followed by the task execution's
writes — is non-decreasing along pending < processing < terminal, and once
a terminal status is written the execution performs no further writes. -/
theorem C2_status_monotone (tid vocal slap content ap ly st sp : String)
    (mixO srtO wO : Option String) (vps : List String) (probe : Option ℚ)
    (draws : List (ℕ × ℚ)) :
    (levelsMonotoneB (pendingWrite :: run_mix_task tid vocal slap mixO) = true ∧
      noWriteAfterTerminalB (pendingWrite :: run_mix_task tid vocal slap mixO) = true) ∧
    (levelsMonotoneB (pendingWrite :: run_srt_sync_task tid content srtO) = true ∧
      noWriteAfterTerminalB (pendingWrite :: run_srt_sync_task tid content srtO) = true) ∧
    (levelsMonotoneB (pendingWrite :: run_montage_task tid ap vps ly st probe draws wO) = true ∧
      noWriteAfterTerminalB (pendingWrite :: run_montage_task tid ap vps ly st probe draws wO)
        = true) ∧
    (levelsMonotoneB (pendingWrite :: run_image_gen_task tid sp) = true ∧
      noWriteAfterTerminalB (pendingWrite :: run_image_gen_task tid sp) = true) := by
  refine ⟨?_, ?_, ?_, ⟨rfl, rfl⟩⟩
  · cases mixO <;> exact ⟨rfl, rfl⟩
  · cases srtO <;> exact ⟨rfl, rfl⟩
  · cases hg : generate_premiere_xml ap vps st (get_audio_duration probe) draws with
    | error e =>
      simp only [run_montage_task, hg]
      exact ⟨rfl, rfl⟩
    | ok segs =>
      cases wO <;> simp only [run_montage_task, hg] <;> exact ⟨rfl, rfl⟩

/-- Claim C3: for every job and every oracle outcome, all registry writes
carry an integer progress in [0, 100]; the creation (pending) write carries
progress 0; the progress values of consecutive processing writes are
non-decreasing; and every completed write carries progress exactly 100. -/
theorem C3_progress_invariants (tid vocal slap content ap ly st sp : String)
    (mixO srtO wO : Option String) (vps : List String) (probe : Option ℚ)
    (draws : List (ℕ × ℚ)) :
    pendingWrite.progress = 0 ∧
    (progressInRangeB (pendingWrite :: run_mix_task tid vocal slap mixO) = true ∧
      processingMonotoneB (pendingWrite :: run_mix_task tid vocal slap mixO) = true ∧
      completedAtHundredB (pendingWrite :: run_mix_task tid vocal slap mixO) = true) ∧
    (progressInRangeB (pendingWrite :: run_srt_sync_task tid content srtO) = true ∧
      processingMonotoneB (pendingWrite :: run_srt_sync_task tid content srtO) = true ∧
      completedAtHundredB (pendingWrite :: run_srt_sync_task tid content srtO) = true) ∧
    (progressInRangeB (pendingWrite :: run_montage_task tid ap vps ly st probe draws wO)
        = true ∧
      processingMonotoneB (pendingWrite :: run_montage_task tid ap vps ly st probe draws wO)
        = true ∧
      completedAtHundredB (pendingWrite :: run_montage_task tid ap vps ly st probe draws wO)
        = true) ∧
    (progressInRangeB (pendingWrite :: run_image_gen_task tid sp) = true ∧
      processingMonotoneB (pendingWrite :: run_image_gen_task tid sp) = true ∧
      completedAtHundredB (pendingWrite :: run_image_gen_task tid sp) = true) := by
  refine ⟨rfl, ?_, ?_, ?_, ⟨rfl, rfl, rfl⟩⟩
  · cases mixO <;> exact ⟨rfl, rfl, rfl⟩
  · cases srtO <;> exact ⟨rfl, rfl, rfl⟩
  · cases hg : generate_premiere_xml ap vps st (get_audio_duration probe) draws with
    | error e =>
      simp only [run_montage_task, hg]
      exact ⟨rfl, rfl, rfl⟩
    | ok segs =>
      cases wO <;> simp only [run_montage_task, hg] <;> exact ⟨rfl, rfl, rfl⟩

/-- Claim C4, counterexample: for a never-submitted id the sentinel record
returned by `get_task_status` carries the status string "NOT_FOUND", not the
lower-case "not_found" the claim states (all other status values are written
lower-case, so the casing is observable to polling clients). -/
theorem C4_counterexample :
    (get_status [] "never-submitted").1.status = "NOT_FOUND" ∧
    (get_status [] "never-submitted").1.progress = 0 ∧
    "NOT_FOUND" ≠ "not_found" :=
  ⟨rfl, rfl, by decide⟩

/-- Claim C4, amended: for every job id not present in the registry,
Query/Get returns the not-found sentinel record — status "NOT_FOUND"
(upper-case, unlike the other status values) and progress 0 — never raises,
and leaves the registry unchanged. -/
theorem C4_amended (reg : Registry) (job_id : String)
    (h : lookupTask reg job_id = none) :
    get_status reg job_id = (notFoundRecord, reg) := by
  simp [get_status, get_task_status, h]

/-- Witness for C4_amended: querying the empty registry. -/
theorem C4_amended_witness : get_status [] "missing" = (notFoundRecord, []) :=
  C4_amended [] "missing" rfl

/-- Claim C5: every accepted submission writes a pending record with
progress 0 synchronously before the endpoint returns, and returns the
allocated job id — so an immediate query on the new registry state observes
status pending, not the not-found sentinel.  (The id itself is a fresh
`uuid4().hex`, modelled as the oracle input `jid`.) -/
theorem C5_submit_creates_pending (reg : Registry) (jid vocal slap ap ly st pr tok : String)
    (vlist : List String) :
    ((start_mix reg jid vocal slap tok).1 = Except.ok jid ∧
      get_task_status (start_mix reg jid vocal slap tok).2 jid = ⟨"pending", none, 0, tok⟩) ∧
    ((start_srt_sync reg jid ap ly tok).1 = Except.ok jid ∧
      get_task_status (start_srt_sync reg jid ap ly tok).2 jid = ⟨"pending", none, 0, tok⟩) ∧
    ((start_montage reg jid ap (some vlist) ly st tok).1 = Except.ok jid ∧
      get_task_status (start_montage reg jid ap (some vlist) ly st tok).2 jid
        = ⟨"pending", none, 0, tok⟩) ∧
    ((start_image_gen reg jid pr tok).1 = Except.ok jid ∧
      get_task_status (start_image_gen reg jid pr tok).2 jid = ⟨"pending", none, 0, tok⟩) :=
  ⟨⟨rfl, get_after_update reg jid "pending" none 0 tok⟩,
   ⟨rfl, get_after_update reg jid "pending" none 0 tok⟩,
   ⟨rfl, get_after_update reg jid "pending" none 0 tok⟩,
   ⟨rfl, get_after_update reg jid "pending" none 0 tok⟩⟩

/-- Claim C6, counterexample: with style "internal" (cut_duration 3, jitter
band [2, 5]), audio duration 3 and two in-band duration draws of 2, the
produced timeline's final segment is clamped to length 1, which lies outside
the band — so not every segment's length lies within the jitter band. -/
theorem C6_counterexample :
    generate_premiere_xml "a.mp3" ["c1", "c2"] "internal" 3 [(0, 2), (1, 2)]
      = Except.ok [⟨0, 0, 2⟩, ⟨1, 2, 1⟩] ∧
    (cut_duration "internal" - 1 ≤ (2 : ℚ) ∧ (2 : ℚ) ≤ cut_duration "internal" + 2) ∧
    ¬ cut_duration "internal" - 1 ≤ (Seg.mk 1 2 1).duration := by
  refine ⟨by norm_num [generate_premiere_xml, buildClips], ?_, ?_⟩
  · norm_num [cut_duration]
  · norm_num [cut_duration]

/-- Claim C6, amended: for every audio duration d > 0, non-empty camera
list, style and draw sequence (each draw inside the style's jitter band),
the timeline produced by a successful `generate_premiere_xml` run consists
of consecutive segments with zero gaps and zero overlaps (each offset equals
the sum of all preceding durations), the total covered duration equals d,
and every segment's length lies within the jitter band
[cut_duration - 1, cut_duration + 2] except possibly the final segment,
which is clamped to the remaining time: it is positive and at most
cut_duration + 2 but may fall below cut_duration - 1. -/
theorem C6_amended (d : ℚ) (ap st : String) (vps : List String)
    (draws : List (ℕ × ℚ)) (segs : List Seg)
    (hd : 0 < d) (hv : vps ≠ [])
    (hdraws : ∀ p ∈ draws, cut_duration st - 1 ≤ p.2 ∧ p.2 ≤ cut_duration st + 2)
    (hok : generate_premiere_xml ap vps st d draws = Except.ok segs) :
    segSum segs = d ∧ offsetsChainedB 0 segs = true ∧
      bandExceptLastB (cut_duration st - 1) (cut_duration st + 2) segs = true := by
  have h := buildClips_ok_spec d (cut_duration st - 1) (cut_duration st + 2)
      vps.length (cut_duration_sub_one_pos st) draws 0 segs hdraws (le_of_lt hd) hok
  exact ⟨by linarith [h.1], h.2.1, h.2.2⟩

/-- Witness for C6_amended at a concrete montage: duration 3, two cameras,
style "internal", draws 2 and 2. -/
theorem C6_amended_witness :
    segSum [⟨0, 0, 2⟩, ⟨1, 2, 1⟩] = 3 ∧
    offsetsChainedB 0 [⟨0, 0, 2⟩, ⟨1, 2, 1⟩] = true ∧
    bandExceptLastB (cut_duration "internal" - 1) (cut_duration "internal" + 2)
      [⟨0, 0, 2⟩, ⟨1, 2, 1⟩] = true := by
  refine C6_amended 3 "a.mp3" "internal" ["c1", "c2"] [(0, 2), (1, 2)] _
    (by norm_num) (by simp) ?_ ?_
  · intro p hp
    fin_cases hp <;> norm_num [cut_duration]
  · norm_num [generate_premiere_xml, buildClips]

/-- Claim C7: Query is idempotent and read-only — a Get leaves the registry
unchanged, and a second Get with no intervening Update returns the identical
snapshot (in particular for jobs in a terminal state). -/
theorem C7_query_idempotent (reg : Registry) (job_id : String) :
    (get_status reg job_id).2 = reg ∧
    get_status (get_status reg job_id).2 job_id = get_status reg job_id :=
  ⟨rfl, rfl⟩

/-- Claim C8: when duration probing fails (`probe = none`),
`get_audio_duration` returns the fixed default 300 instead of raising, and
the montage job proceeds to build — and complete — a 300-time-unit timeline
(given draws from the style's band, enough of them to cover 300, and at
least one camera). -/
theorem C8_duration_fallback (tid ap ly st : String) (vps : List String)
    (draws : List (ℕ × ℚ))
    (hv : vps ≠ [])
    (hdraws : ∀ p ∈ draws, cut_duration st - 1 ≤ p.2 ∧ p.2 ≤ cut_duration st + 2)
    (hlen : 300 ≤ (draws.length : ℚ) * (cut_duration st - 1)) :
    get_audio_duration none = 300 ∧
    ∃ segs, generate_premiere_xml ap vps st (get_audio_duration none) draws
        = Except.ok segs ∧
      segSum segs = 300 ∧
      run_montage_task tid ap vps ly st none draws none
        = [montageWrite1, montageWrite2, montageWrite3, montageCompletedWrite tid] := by
  have hcam : vps.length ≠ 0 := by simpa using hv
  obtain ⟨segs, hok⟩ := buildClips_enough_draws 300 (cut_duration st - 1) vps.length hcam
      (cut_duration_sub_one_pos st) draws 0 (fun p hp => (hdraws p hp).1)
      (by simpa using hlen)
  have hok2 : generate_premiere_xml ap vps st (get_audio_duration none) draws
      = Except.ok segs := hok
  have hspec := buildClips_ok_spec 300 (cut_duration st - 1) (cut_duration st + 2)
      vps.length (cut_duration_sub_one_pos st) draws 0 segs hdraws (by norm_num) hok
  refine ⟨rfl, segs, hok2, by linarith [hspec.1], ?_⟩
  simp only [run_montage_task, hok2]

/-- Witness for C8_duration_fallback: one camera, style "grand"
(cut_duration 6), sixty draws of length 8 — enough to cover 300. -/
theorem C8_duration_fallback_witness :
    get_audio_duration none = 300 ∧
    ∃ segs, generate_premiere_xml "a.mp3" ["c1"] "grand" (get_audio_duration none)
        (List.replicate 60 (0, 8)) = Except.ok segs ∧
      segSum segs = 300 ∧
      run_montage_task "t" "a.mp3" ["c1"] "ly" "grand" none (List.replicate 60 (0, 8)) none
        = [montageWrite1, montageWrite2, montageWrite3, montageCompletedWrite "t"] := by
  refine C8_duration_fallback "t" "a.mp3" "ly" "grand" ["c1"] (List.replicate 60 (0, 8))
    (by simp) ?_ ?_
  · intro p hp
    rw [List.eq_of_mem_replicate hp, show cut_duration "grand" = 6 from rfl]
    norm_num
  · simp only [List.length_replicate]
    rw [show cut_duration "grand" = 6 from rfl]
    norm_num

/-- Claim C9: a montage submission whose video_paths form field is not
valid JSON is rejected synchronously (`json.loads` raises before the uuid is
drawn and before any registry write), so the caller gets the error and the
registry is left exactly unchanged — no pending record is created. -/
theorem C9_reject_invalid_json (reg : Registry) (jid ap ly st tok : String) :
    start_montage reg jid ap none ly st tok
      = (Except.error "video_paths is not valid JSON", reg) ∧
    (start_montage reg jid ap none ly st tok).2 = reg :=
  ⟨rfl, rfl⟩

/-- Claim C10, counterexample: a montage submission with an empty decoded
video_paths list does NOT always end failed — when the probed audio duration
is 0 the cut loop never runs, `random.randint` is never called, and the job
completes.  (`0 < 0` fails, so `generate_premiere_xml` returns an empty
timeline and the task writes completed.) -/
theorem C10_counterexample :
    run_montage_task "t" "a.mp3" [] "ly" "internal" (some 0) [] none
      = [montageWrite1, montageWrite2, montageWrite3, montageCompletedWrite "t"] ∧
    (montageCompletedWrite "t").status = "completed" :=
  ⟨rfl, rfl⟩

/-- Claim C10, amended: for every montage submission whose decoded
video_paths list is empty and whose effective audio duration is positive
(always the case when probing fails, since the fallback is 300), the cut
loop's `random.randint(0, -1)` raises inside `generate_premiere_xml`, the
adapter catches it, and the execution ends with a Failed terminal update
carrying the error payload — the job never reaches completed. -/
theorem C10_amended (tid ap ly st : String) (probe : Option ℚ)
    (draws : List (ℕ × ℚ)) (wO : Option String)
    (h : 0 < get_audio_duration probe) :
    run_montage_task tid ap [] ly st probe draws wO
      = [montageWrite1, montageWrite2, montageWrite3,
          failedWrite "empty range for randrange()"] := by
  have hg : generate_premiere_xml ap [] st (get_audio_duration probe) draws
      = Except.error "empty range for randrange()" := by
    cases draws with
    | nil => simp [generate_premiere_xml, buildClips, h]
    | cons p rest =>
      obtain ⟨c, r⟩ := p
      simp [generate_premiere_xml, buildClips, h]
  simp only [run_montage_task, hg]

/-- Witness for C10_amended: probing fails, so the duration is the 300
fallback, which is positive. -/
theorem C10_amended_witness :
    run_montage_task "t" "a.mp3" [] "ly" "internal" none [] none
      = [montageWrite1, montageWrite2, montageWrite3,
          failedWrite "empty range for randrange()"] :=
  C10_amended "t" "a.mp3" "ly" "internal" none [] none
    (by norm_num [get_audio_duration])

end Menbar
